import Mathlib

/-!
# Verification of the Twilio webhook bridge (`src/tests/twilio/test_webhook_integration.py`)

Shallow embedding of the repository's telephony webhook bridge: the
signature validator `validate_twilio_request`, the control endpoint
`handle_incoming_call` (TwiML generation), and the media-stream WebSocket
handler `handle_media_stream`.  The embedding follows the Python source
line by line; Python's dynamic JSON values, attribute errors and
truthiness are modelled explicitly so that the error paths of the source
are captured faithfully.
-/

/-! ## Python JSON values

`json.loads` produces Python values: `None`, booleans, numbers, strings,
lists and dicts.  JSON numbers are modelled as integers (no claim depends
on fractional values).  Dicts are association lists with the keys assumed
distinct, as produced by `json.loads`. -/

/-- A Python value as produced by `json.loads`. -/
inductive PyVal where
  | null
  | bool (b : Bool)
  | int (n : Int)
  | str (s : String)
  | list (xs : List PyVal)
  | dict (xs : List (String × PyVal))

/-- Python exceptions that the modelled code can raise. -/
inductive PyErr where
  /-- `AttributeError`: calling `.get` on a non-dict value. -/
  | attributeError
  /-- `TypeError`: calling `len()` on a value with no length. -/
  | typeError
  /-- `json.JSONDecodeError`: the received text is not valid JSON. -/
  | jsonDecodeError
  /-- The WebSocket `receive_text` call raised (connection dropped). -/
  | connectionError
  /-- The WebSocket `send_text` call raised. -/
  | sendError
deriving DecidableEq

/-- Association-list lookup used to model Python `dict` access. -/
def assocLookup (xs : List (String × PyVal)) (key : String) : Option PyVal :=
  match xs with
  | [] => Option.none
  | (k, v) :: rest => if k = key then some v else assocLookup rest key

/-- Python `d.get(key)`: `None` when the key is absent; raises
`AttributeError` when `d` is not a dict. -/
def PyVal.get (d : PyVal) (key : String) : Except PyErr PyVal :=
  match d with
  | .dict xs =>
    match assocLookup xs key with
    | some v => .ok v
    | Option.none => .ok .null
  | _ => .error .attributeError

/-- Python `d.get(key, dflt)`: the default when the key is absent; raises
`AttributeError` when `d` is not a dict. -/
def PyVal.getD (d : PyVal) (key : String) (dflt : PyVal) : Except PyErr PyVal :=
  match d with
  | .dict xs =>
    match assocLookup xs key with
    | some v => .ok v
    | Option.none => .ok dflt
  | _ => .error .attributeError

/-- Python truthiness of a JSON value (`if payload`). -/
def PyVal.truthy : PyVal → Bool
  | .null => false
  | .bool b => b
  | .int n => n ≠ 0
  | .str s => s ≠ ""
  | .list xs => !xs.isEmpty
  | .dict xs => !xs.isEmpty

/-- Python `len(v)`: defined on strings, lists and dicts; raises
`TypeError` otherwise. -/
def PyVal.pyLen : PyVal → Except PyErr Nat
  | .str s => .ok s.length
  | .list xs => .ok xs.length
  | .dict xs => .ok xs.length
  | _ => .error .typeError

/-- Python `v == "lit"` for a string literal: true only for an equal
string (comparing a non-string to a string is `False`, never an error). -/
def PyVal.eqStr (v : PyVal) (lit : String) : Bool :=
  match v with
  | .str s => s = lit
  | _ => false

/-! ## UTF-8, SHA-1, HMAC-SHA1 and base64

The Twilio `RequestValidator` called by `validate_twilio_request` lives in
the external `twilio` package, not under `src/`.

Modelled from the spec: the Signature Validator's algorithm (spec §4.1) —
a base64-encoded HMAC-SHA1 over the concatenation of the full request URL
and the raw request body, keyed by the shared secret, compared to the
signature header with a constant-time comparison.  Bytes are `Nat`s below
256; 32-bit arithmetic is `Nat` arithmetic mod `2 ^ 32`. -/

/-- UTF-8 encoding of a single code point. -/
def utf8Char (n : Nat) : List Nat :=
  if n < 0x80 then [n]
  else if n < 0x800 then [0xC0 + n / 64, 0x80 + n % 64]
  else if n < 0x10000 then [0xE0 + n / 4096, 0x80 + n / 64 % 64, 0x80 + n % 64]
  else [0xF0 + n / 262144, 0x80 + n / 4096 % 64, 0x80 + n / 64 % 64, 0x80 + n % 64]

/-- UTF-8 encoding of a string as a byte list (Python `s.encode()`). -/
def utf8 (s : String) : List Nat :=
  s.data.foldr (fun c acc => utf8Char c.toNat ++ acc) []

/-- Rotate a 32-bit word left by `k` bits. -/
def rotl (k n : Nat) : Nat :=
  ((n <<< k) ||| (n >>> (32 - k))) % 4294967296

/-- Big-endian bytes of a 32-bit word. -/
def word32Bytes (w : Nat) : List Nat :=
  [w >>> 24 % 256, w >>> 16 % 256, w >>> 8 % 256, w % 256]

/-- Big-endian bytes of a 64-bit word. -/
def word64Bytes (w : Nat) : List Nat :=
  [w >>> 56 % 256, w >>> 48 % 256, w >>> 40 % 256, w >>> 32 % 256,
   w >>> 24 % 256, w >>> 16 % 256, w >>> 8 % 256, w % 256]

/-- SHA-1 padding: `0x80`, zeros to 56 mod 64, then the 64-bit bit length. -/
def sha1Pad (msg : List Nat) : List Nat :=
  let r := (msg.length + 1) % 64
  let zeros := if r ≤ 56 then 56 - r else 120 - r
  msg ++ [0x80] ++ List.replicate zeros 0 ++ word64Bytes (msg.length * 8)

/-- Split a byte list into 64-byte blocks.  `fuel` is a structural bound
on the number of blocks (the list's length suffices), keeping the
recursion structural so that the kernel can evaluate it. -/
def toBlocks : Nat → List Nat → List (List Nat)
  | 0, _ => []
  | _, [] => []
  | fuel + 1, a :: rest => ((a :: rest).take 64) :: toBlocks fuel ((a :: rest).drop 64)

/-- Big-endian 32-bit words from a byte list. -/
def bytesToWords : List Nat → List Nat
  | b0 :: b1 :: b2 :: b3 :: rest =>
    (((b0 * 256 + b1) * 256 + b2) * 256 + b3) :: bytesToWords rest
  | _ => []

/-- Extend the 16 schedule words to 80 (`fuel` counts remaining words). -/
def sha1Extend : Nat → List Nat → List Nat
  | 0, w => w
  | fuel + 1, w =>
    let n := w.length
    let nw := rotl 1 ((((w.getD (n - 3) 0).xor (w.getD (n - 8) 0)).xor
      (w.getD (n - 14) 0)).xor (w.getD (n - 16) 0))
    sha1Extend fuel (w ++ [nw])

/-- The five SHA-1 working registers. -/
structure Sha1Regs where
  a : Nat
  b : Nat
  c : Nat
  d : Nat
  e : Nat

/-- One SHA-1 round on the working registers. -/
def sha1Round (i : Nat) (w : Nat) (r : Sha1Regs) : Sha1Regs :=
  let notB := 4294967295 - r.b
  let f :=
    if i < 20 then (r.b.land r.c).lor (notB.land r.d)
    else if i < 40 then (r.b.xor r.c).xor r.d
    else if i < 60 then ((r.b.land r.c).lor (r.b.land r.d)).lor (r.c.land r.d)
    else (r.b.xor r.c).xor r.d
  let k :=
    if i < 20 then 0x5A827999
    else if i < 40 then 0x6ED9EBA1
    else if i < 60 then 0x8F1BBCDC
    else 0xCA62C1D6
  let temp := (rotl 5 r.a + f + r.e + k + w) % 4294967296
  { a := temp, b := r.a, c := rotl 30 r.b, d := r.c, e := r.d }

/-- Compress one 64-byte block (given as 16 words) into the running hash. -/
def sha1Block (h : Sha1Regs) (w16 : List Nat) : Sha1Regs :=
  let w := sha1Extend 64 w16
  let r := (w.enum).foldl (fun r p => sha1Round p.1 p.2 r) h
  { a := (h.a + r.a) % 4294967296
    b := (h.b + r.b) % 4294967296
    c := (h.c + r.c) % 4294967296
    d := (h.d + r.d) % 4294967296
    e := (h.e + r.e) % 4294967296 }

/-- SHA-1 digest (20 bytes) of a byte list. -/
def sha1 (msg : List Nat) : List Nat :=
  let init : Sha1Regs :=
    { a := 0x67452301, b := 0xEFCDAB89, c := 0x98BADCFE, d := 0x10325476, e := 0xC3D2E1F0 }
  let padded := sha1Pad msg
  let h := ((toBlocks padded.length padded).map bytesToWords).foldl sha1Block init
  word32Bytes h.a ++ word32Bytes h.b ++ word32Bytes h.c ++ word32Bytes h.d ++ word32Bytes h.e

/-- HMAC-SHA1 (RFC 2104) of a message under a key, both byte lists. -/
def hmacSha1 (key msg : List Nat) : List Nat :=
  let k0 := if 64 < key.length then sha1 key else key
  let k := k0 ++ List.replicate (64 - k0.length) 0
  let ipad := k.map (fun b => b.xor 0x36)
  let opad := k.map (fun b => b.xor 0x5C)
  sha1 (opad ++ sha1 (ipad ++ msg))

/-- The base64 alphabet. -/
def b64Char (n : Nat) : Char :=
  "ABCDEFGHIJKLMNOPQRSTUVWXYZabcdefghijklmnopqrstuvwxyz0123456789+/".data.getD n 'A'

/-- Standard base64 encoding of a byte list. -/
def b64encode : List Nat → List Char
  | [] => []
  | [a] => [b64Char (a / 4), b64Char (a % 4 * 16), '=', '=']
  | [a, b] => [b64Char (a / 4), b64Char (a % 4 * 16 + b / 16), b64Char (b % 16 * 4), '=']
  | a :: b :: c :: rest =>
    b64Char (a / 4) :: b64Char (a % 4 * 16 + b / 16) ::
      b64Char (b % 16 * 4 + c / 64) :: b64Char (c % 64) :: b64encode rest

/-- The signature the validator computes: base64 HMAC-SHA1 over the
concatenation of the full request URL and the raw body, keyed by the
shared secret (spec §4.1). -/
def computeSignature (token url body : String) : String :=
  String.mk (b64encode (hmacSha1 (utf8 token) (utf8 (url ++ body))))

/-- Functional model of the constant-time digest comparison
(`hmac.compare_digest`): timing is not modelled, the result is equality. -/
def secureCompare (a b : String) : Bool :=
  a = b

/-! ## Signature validator and control endpoint

`validate_twilio_request` and `handle_incoming_call` from
`src/tests/twilio/test_webhook_integration.py`.  Environment configuration
(`TWILIO_AUTH_TOKEN`, `TWILIO_PHONE_NUMBER`, `SIMPLE_VOICE_TEST`) is
passed explicitly; `os.getenv` yields `Option.none` for an unset
variable.  Python console output (`print`) is returned as a log list
where a claim depends on it. -/

/-- The environment configuration read at module load. -/
structure Config where
  /-- `TWILIO_AUTH_TOKEN = os.getenv("TWILIO_AUTH_TOKEN")`. -/
  twilio_auth_token : Option String
  /-- `TWILIO_PHONE_NUMBER = os.getenv("TWILIO_PHONE_NUMBER")`. -/
  twilio_phone_number : Option String
  /-- `os.getenv("SIMPLE_VOICE_TEST", "false")` (default applied). -/
  simple_voice_test : String := "false"

/-- Python truthiness of `os.getenv`'s result: an unset variable (`None`)
and the empty string are both falsy (`if not TWILIO_AUTH_TOKEN`). -/
def tokenTruthy : Option String → Bool
  | Option.none => false
  | some s => !s.isEmpty

/-- The data of the inbound `POST /incoming-call` request that the handler
reads. -/
structure IncomingRequest where
  /-- `str(request.url)`. -/
  url : String
  /-- `str(request.base_url)` — scheme plus the request's own host. -/
  base_url : String
  /-- `request.headers.get("X-Twilio-Signature", "")`. -/
  signatureHeader : String := ""
  /-- The raw request body, decoded (`body.decode()`). -/
  body : String

/-- `validate_twilio_request`: returns `True` (logging the degradation)
when no auth token is configured; otherwise compares the computed
signature with the `X-Twilio-Signature` header.  The boolean result is
paired with the lines printed. -/
def validate_twilio_request (token : Option String) (url body sig : String) :
    Bool × List String :=
  match token with
  | Option.none => (true, ["⚠️  TWILIO_AUTH_TOKEN not configured - skipping validation"])
  | some t =>
    if t.isEmpty then (true, ["⚠️  TWILIO_AUTH_TOKEN not configured - skipping validation"])
    else (secureCompare (computeSignature t url body) sig, [])

/-- One TwiML instruction emitted by the handler: `response.say`,
`response.start().stream(url=...)` or `response.pause(length=...)`. -/
inductive TwiMLVerb where
  | say (text : String)
  | startStream (url : String)
  | pause (length : Nat)
deriving DecidableEq

/-- Whether a verb is the "start streaming" instruction. -/
def TwiMLVerb.isStream : TwiMLVerb → Bool
  | .startStream _ => true
  | _ => false

/-- Whether a verb is a pause instruction. -/
def TwiMLVerb.isPause : TwiMLVerb → Bool
  | .pause _ => true
  | _ => false

/-- The verb's pause duration (0 for non-pause verbs). -/
def TwiMLVerb.pauseLength : TwiMLVerb → Nat
  | .pause n => n
  | _ => 0

/-- Serialize one TwiML verb as its markup element. -/
def TwiMLVerb.render : TwiMLVerb → String
  | .say text => "<Say>" ++ text ++ "</Say>"
  | .startStream url => "<Start><Stream url=\"" ++ url ++ "\" /></Start>"
  | .pause length => "<Pause length=\"" ++ toString length ++ "\" />"

/-- Serialize a TwiML document: XML declaration plus a `<Response>` root. -/
def renderTwiML (doc : List TwiMLVerb) : String :=
  "<?xml version=\"1.0\" encoding=\"UTF-8\"?><Response>"
    ++ String.join (doc.map TwiMLVerb.render) ++ "</Response>"

/-- Python `s.lower()` as used on the `SIMPLE_VOICE_TEST` value, modelled
for ASCII (the value is only ever compared with the ASCII literal
`"true"`). -/
def pyLower (s : String) : String :=
  String.mk (s.data.map (fun c =>
    if 65 ≤ c.toNat ∧ c.toNat ≤ 90 then Char.ofNat (c.toNat + 32) else c))

/-- The WebSocket URL the handler derives from the request's own base URL:
`str(request.base_url).replace("http://", "ws://").replace("https://",
"wss://")` followed by `"media-stream"`. -/
def websocketUrl (base_url : String) : String :=
  ((base_url.replace "http://" "ws://").replace "https://" "wss://") ++ "media-stream"

/-- The TwiML document `handle_incoming_call` builds after validation:
two `Say` verbs when `SIMPLE_VOICE_TEST` is `"true"` (case-insensitively),
otherwise a `Say` acknowledgement, a `Start`/`Stream` to the derived
WebSocket URL, and a one-hour `Pause`. -/
def incomingCallTwiml (cfg : Config) (req : IncomingRequest) : List TwiMLVerb :=
  if pyLower cfg.simple_voice_test = "true" then
    [.say "Hello! This is your Pipecat AI agent. The webhook integration is working correctly.",
     .say "You can now integrate this with your voice AI system."]
  else
    [.say "Connecting you to the AI agent. Please wait a moment.",
     .startStream (websocketUrl req.base_url),
     .pause 3600]

/-- An HTTP response from the control endpoint.  FastAPI's
`Response(status_code=403)` carries no content (empty body) and no
media type. -/
structure HttpResponse where
  status : Nat
  content : Option String
  mediaType : Option String
deriving DecidableEq

/-- `handle_incoming_call`: validates the signature and returns 403 with
an empty body on failure, otherwise the TwiML document as
`application/xml`. -/
def handle_incoming_call (cfg : Config) (req : IncomingRequest) : HttpResponse :=
  if (validate_twilio_request cfg.twilio_auth_token req.url req.body req.signatureHeader).1
  then
    { status := 200
      content := some (renderTwiML (incomingCallTwiml cfg req))
      mediaType := some "application/xml" }
  else
    { status := 403, content := Option.none, mediaType := Option.none }

/-! ## Media-stream WebSocket handler

`handle_media_stream` from `src/tests/twilio/test_webhook_integration.py`:
an accept, then a `while True` loop that receives a text frame, parses it
with `json.loads`, and dispatches on the `event` field; the whole loop sits
in a `try`/`except Exception`/`finally`.  The inbound side of the
connection is modelled as a list of items: a successfully received and
parsed message (together with whether a `send_text` performed while
handling it would succeed), a frame whose `json.loads` raises, or a
receive that raises (connection dropped). -/

/-- One occurrence on the WebSocket's inbound side. -/
inductive WsItem where
  /-- A text frame was received and `json.loads` parsed it to `data`;
  `sendOk` tells whether a `send_text` issued while handling it succeeds. -/
  | msg (data : PyVal) (sendOk : Bool)
  /-- A text frame was received but `json.loads` raised. -/
  | malformed
  /-- `receive_text` itself raised (the connection dropped). -/
  | recvErr

/-- Observable state accumulated by the media-stream loop.

`sent` collects the frames passed to `websocket.send_text`, in order.
`registry` records the session registrations performed by the loop: the
source's `handle_media_stream` registers sessions nowhere (no session
registry exists in the code — the `start` branch only prints the stream
SID), so no step of the loop ever writes to this field. -/
structure MSState where
  sent : List PyVal := []
  registry : List String := []
deriving Inhabited

/-- Frames forwarded to a speech-processing backend during a run of the
handler: the source opens no backend connection and forwards frames
nowhere except echoing them back on the same carrier-facing WebSocket,
so this list is empty for every run. -/
def backendForwarded (_st : MSState) : List PyVal := []

/-- The `response_audio` frame the `media` branch sends back: the received
payload echoed under `media.payload`, with `streamSid` copied from the
incoming event's top-level `streamSid` field. -/
def echoFrame (sid payload : PyVal) : PyVal :=
  .dict [("event", .str "media"), ("streamSid", sid), ("media", .dict [("payload", payload)])]

/-- Dispatch one parsed message, following the `if`/`elif` chain of the
source.  Returns the frames sent while handling it and whether the loop
`break`s (the `stop` branch); raises exactly where the Python raises
(`.get` on a non-dict, `len()` on a truthy unsized payload, a failing
`send_text`). -/
def handleEvent (data : PyVal) (sendOk : Bool) : Except PyErr (List PyVal × Bool) :=
  match data.get "event" with
  | .error e => .error e
  | .ok event =>
    if event.eqStr "connected" then .ok ([], false)
    else if event.eqStr "start" then
      match data.getD "start" (.dict []) with
      | .error e => .error e
      | .ok startObj =>
        match startObj.get "streamSid" with
        | .error e => .error e
        | .ok _streamSid => .ok ([], false)
    else if event.eqStr "media" then
      match data.getD "media" (.dict []) with
      | .error e => .error e
      | .ok mediaObj =>
        match mediaObj.get "payload" with
        | .error e => .error e
        | .ok payload =>
          match if payload.truthy then payload.pyLen else .ok 0 with
          | .error e => .error e
          | .ok _payloadLen =>
            match data.get "streamSid" with
            | .error e => .error e
            | .ok sid =>
              if sendOk then .ok ([echoFrame sid payload], false)
              else .error .sendError
    else if event.eqStr "stop" then .ok ([], true)
    else .ok ([], false)

/-- Whether the `len(payload) if payload else 0` expression of the `media`
branch evaluates without raising for this payload value. -/
def lenCheckOk (payload : PyVal) : Bool :=
  match if payload.truthy then payload.pyLen else .ok 0 with
  | .ok _ => true
  | .error _ => false

/-- The body of the `try`: the receive/dispatch loop.  `.ok (true, st)`
means the loop exited through the `stop` branch's `break`; `.ok (false,
st)` means the item list was exhausted with the loop still awaiting the
next frame; `.error (e, st)` means an exception `e` escaped the loop with
the state accumulated so far. -/
def mediaLoop : List WsItem → MSState → Except (PyErr × MSState) (Bool × MSState)
  | [], st => .ok (false, st)
  | .recvErr :: _, st => .error (.connectionError, st)
  | .malformed :: _, st => .error (.jsonDecodeError, st)
  | .msg data sendOk :: rest, st =>
    match handleEvent data sendOk with
    | .error e => .error (e, st)
    | .ok (outs, brk) =>
      let st' : MSState := { st with sent := st.sent ++ outs }
      if brk then .ok (true, st') else mediaLoop rest st'

/-- How a run of the handler ended. -/
inductive ExitKind where
  /-- The loop exited through the `stop` branch's `break`. -/
  | stopped
  /-- An exception was raised and caught by the `except Exception` clause. -/
  | caught (e : PyErr)
  /-- The modelled item list was exhausted: the loop is still awaiting the
  next frame, so the handler has not returned yet. -/
  | awaiting
deriving DecidableEq

/-- The result of running `handle_media_stream` on an inbound item list:
the final observable state, how the run ended, and whether the `finally`
clause (the handler's teardown) has run — it runs exactly when the loop
exited, by `break` or by a caught exception. -/
structure MSRun where
  final : MSState
  exitKind : ExitKind
  finallyRan : Bool

/-- `handle_media_stream`: the `try`/`except Exception`/`finally` around
`mediaLoop`.  Every exception the loop raises is caught; the teardown
(`finally`) runs whenever the loop exits, and the handler then returns
normally. -/
def handle_media_stream (items : List WsItem) : MSRun :=
  match mediaLoop items {} with
  | .ok (true, st) => { final := st, exitKind := .stopped, finallyRan := true }
  | .ok (false, st) => { final := st, exitKind := .awaiting, finallyRan := false }
  | .error (e, st) => { final := st, exitKind := .caught e, finallyRan := true }

/-- A well-formed `media` event message as Twilio sends it: base64 payload
under `media.payload`, stream identifier at top level. -/
def mkMediaMsg (sid payload : String) : PyVal :=
  .dict [("event", .str "media"), ("streamSid", .str sid),
         ("media", .dict [("payload", .str payload)])]

/-- The echo frame the handler sends back for `mkMediaMsg sid payload`. -/
def mkEchoMsg (sid payload : String) : PyVal :=
  echoFrame (.str sid) (.str payload)

/-- A well-formed `start` event message as Twilio sends it. -/
def mkStartMsg (sid : String) : PyVal :=
  .dict [("event", .str "start"), ("start", .dict [("streamSid", .str sid)])]

/-- The `stop` event message. -/
def mkStopMsg : PyVal := .dict [("event", .str "stop")]

/-- The state a run of `mediaLoop` ended in, whether it returned or an
exception escaped. -/
def loopFinal : Except (PyErr × MSState) (Bool × MSState) → MSState
  | .ok (_, st) => st
  | .error (_, st) => st

/-- Two byte lists of equal length differing in exactly one position. -/
def oneByteDiff (a b : List Nat) : Bool :=
  a.length == b.length &&
    ((a.zip b).filter (fun p => p.1 != p.2)).length == 1

/-! ## Helper lemmas -/

/-- `secureCompare` accepts a value against itself. -/
theorem secureCompare_self (s : String) : secureCompare s s = true := by
  simp [secureCompare]

/-- With a non-empty token the validator's verdict is the comparison of
the computed signature against the header. -/
theorem validate_some_fst (t url body sig : String) (ht : t.isEmpty = false) :
    (validate_twilio_request (some t) url body sig).1 =
      secureCompare (computeSignature t url body) sig := by
  simp [validate_twilio_request, ht]

/-- The final state of `handle_media_stream` is the final state of the
underlying loop, on every exit path. -/
theorem handle_media_stream_final (items : List WsItem) :
    (handle_media_stream items).final = loopFinal (mediaLoop items {}) := by
  unfold handle_media_stream
  cases h : mediaLoop items {} with
  | ok v =>
    rcases v with ⟨b, st⟩
    cases b <;> simp [loopFinal]
  | error v =>
    rcases v with ⟨e, st⟩
    simp [loopFinal]

/-- The loop never writes the registry and only appends to the sent list:
its final state, on every exit path, keeps the starting registry and
extends the starting sent list. -/
theorem mediaLoop_registry_sent (items : List WsItem) (st : MSState) :
    (loopFinal (mediaLoop items st)).registry = st.registry ∧
    ∃ tail, (loopFinal (mediaLoop items st)).sent = st.sent ++ tail := by
  induction items generalizing st with
  | nil => exact ⟨rfl, [], by simp [mediaLoop, loopFinal]⟩
  | cons item rest ih =>
    cases item with
    | recvErr => exact ⟨rfl, [], by simp [mediaLoop, loopFinal]⟩
    | malformed => exact ⟨rfl, [], by simp [mediaLoop, loopFinal]⟩
    | msg data sendOk =>
      simp only [mediaLoop]
      cases h : handleEvent data sendOk with
      | error e => exact ⟨rfl, [], by simp [loopFinal]⟩
      | ok r =>
        rcases r with ⟨outs, brk⟩
        cases brk with
        | true => exact ⟨rfl, outs, by simp [loopFinal]⟩
        | false =>
          simp only [if_neg Bool.false_ne_true]
          obtain ⟨hreg, tail, hsent⟩ := ih { st with sent := st.sent ++ outs }
          refine ⟨hreg, outs ++ tail, ?_⟩
          rw [hsent]
          simp [List.append_assoc]

/-- Evaluating the `media` branch on a well-formed Twilio media message:
exactly one echo frame is sent and the loop does not break. -/
theorem handleEvent_media_str (sid payload : String) :
    handleEvent (mkMediaMsg sid payload) true = .ok ([mkEchoMsg sid payload], false) := by
  by_cases hp : payload = "" <;>
    simp [handleEvent, mkMediaMsg, mkEchoMsg, PyVal.get, PyVal.getD, assocLookup,
      PyVal.eqStr, PyVal.truthy, PyVal.pyLen, hp]

/-- Evaluating the `start` branch on a well-formed Twilio start message:
nothing is sent, nothing is recorded, and the loop continues. -/
theorem handleEvent_start (sid : String) :
    handleEvent (mkStartMsg sid) true = .ok ([], false) := rfl

/-- Evaluating the `stop` branch: nothing is sent and the loop breaks. -/
theorem handleEvent_stop : handleEvent mkStopMsg true = .ok ([], true) := rfl

/-! ## Claims -/

/-- Claim C1: for every `POST /incoming-call` request, if a shared secret
(auth token) is configured and the signature header does not validate
against the request URL and body, the server responds with HTTP 403 and
an empty response body, and no control document is returned. -/
theorem incoming_call_invalid_signature_403 (cfg : Config) (req : IncomingRequest)
    (_hTok : tokenTruthy cfg.twilio_auth_token = true)
    (hSig : (validate_twilio_request cfg.twilio_auth_token req.url req.body
      req.signatureHeader).1 = false) :
    handle_incoming_call cfg req =
      { status := 403, content := Option.none, mediaType := Option.none } := by
  simp [handle_incoming_call, hSig]

set_option maxRecDepth 8000 in
/-- Claim C1 witness: with secret `"shh"` configured and signature header
`"bad"`, the concrete request is rejected with a 403 and empty body. -/
theorem incoming_call_invalid_signature_403_witness :
    tokenTruthy (some "shh") = true ∧
    (validate_twilio_request (some "shh") "https://example.com/incoming-call"
      "From=%2B15551234567" "bad").1 = false ∧
    handle_incoming_call
      { twilio_auth_token := some "shh", twilio_phone_number := Option.none,
        simple_voice_test := "false" }
      { url := "https://example.com/incoming-call", base_url := "https://example.com/",
        signatureHeader := "bad", body := "From=%2B15551234567" } =
      { status := 403, content := Option.none, mediaType := Option.none } := by
  have hSig : (validate_twilio_request (some "shh") "https://example.com/incoming-call"
      "From=%2B15551234567" "bad").1 = false := by decide
  exact ⟨rfl, hSig, incoming_call_invalid_signature_403 _ _ rfl hSig⟩

/-- Claim C2: with the shared secret absent or empty the validator accepts
every request unconditionally, logging the degradation; with a non-empty
secret configured it instead compares the computed signature — so
validation is disabled exactly when no secret is configured. -/
theorem validator_accepts_when_secret_absent (token : Option String) (url body sig : String) :
    (tokenTruthy token = false →
      validate_twilio_request token url body sig =
        (true, ["⚠️  TWILIO_AUTH_TOKEN not configured - skipping validation"])) ∧
    (∀ t : String, token = some t → t.isEmpty = false →
      validate_twilio_request token url body sig =
        (secureCompare (computeSignature t url body) sig, [])) := by
  constructor
  · intro h
    cases token with
    | none => rfl
    | some t =>
      have ht : t.isEmpty = true := by
        cases hE : t.isEmpty
        · simp [tokenTruthy, hE] at h
        · rfl
      simp [validate_twilio_request, ht]
  · intro t ht hne
    subst ht
    simp [validate_twilio_request, hne]

/-- Claim C2 witness: an unset token accepts a concrete request and logs
the warning; the configured token `"shh"` makes the validator compare
signatures. -/
theorem validator_accepts_when_secret_absent_witness :
    validate_twilio_request Option.none "https://example.com/incoming-call" "From=%2B1" "sig" =
      (true, ["⚠️  TWILIO_AUTH_TOKEN not configured - skipping validation"]) ∧
    validate_twilio_request (some "shh") "https://example.com/incoming-call" "From=%2B1" "sig" =
      (secureCompare (computeSignature "shh" "https://example.com/incoming-call" "From=%2B1")
        "sig", []) :=
  ⟨(validator_accepts_when_secret_absent Option.none _ _ _).1 rfl,
   (validator_accepts_when_secret_absent (some "shh") _ _ _).2 "shh" rfl rfl⟩

/-- Claim C3 counterexample: an unparseable frame terminates the session,
contrary to the claim — the `json.loads` exception is caught by the
handler's `except Exception`, so the following well-formed `media` event
is never processed (nothing is sent) and the run ends as a caught
`JSONDecodeError`. -/
theorem malformed_json_terminates_session_cex :
    (handle_media_stream [.malformed, .msg (mkMediaMsg "S1" "QUJD") true]).exitKind =
      .caught .jsonDecodeError ∧
    (handle_media_stream [.malformed, .msg (mkMediaMsg "S1" "QUJD") true]).final.sent = [] :=
  ⟨rfl, rfl⟩

/-- Claim C3 as amended: a message with an unknown event name is skipped
(silently — the source has no logging branch for it) and the session
continues with the remaining events unchanged; an unparseable frame,
however, raises and is caught by the handler's outer `except Exception`,
terminating the session after teardown, regardless of what follows. -/
theorem unknown_event_skipped_malformed_caught
    (data ev : PyVal) (sendOk : Bool) (rest : List WsItem) (st : MSState)
    (hev : data.get "event" = .ok ev)
    (hc : ev.eqStr "connected" = false) (hs : ev.eqStr "start" = false)
    (hm : ev.eqStr "media" = false) (hp : ev.eqStr "stop" = false) :
    mediaLoop (.msg data sendOk :: rest) st = mediaLoop rest st ∧
    ∀ rest' : List WsItem,
      handle_media_stream (.malformed :: rest') =
        { final := {}, exitKind := .caught .jsonDecodeError, finallyRan := true } := by
  constructor
  · have hE : handleEvent data sendOk = .ok ([], false) := by
      unfold handleEvent
      rw [hev]
      simp [hc, hs, hm, hp]
    simp [mediaLoop, hE]
  · intro rest'
    rfl

/-- Claim C3 witness: a concrete `{"event": "ping"}` message is skipped and
the loop continues with the rest of the items. -/
theorem unknown_event_skipped_malformed_caught_witness :
    (PyVal.dict [("event", .str "ping")]).get "event" = .ok (.str "ping") ∧
    mediaLoop [.msg (.dict [("event", .str "ping")]) true, .msg mkStopMsg true] {} =
      mediaLoop [.msg mkStopMsg true] {} :=
  ⟨rfl, (unknown_event_skipped_malformed_caught (.dict [("event", .str "ping")]) (.str "ping")
      true [.msg mkStopMsg true] {} rfl rfl rfl rfl rfl).1⟩

/-- Claim C4: every request passing validation in MediaBridge mode
(`SIMPLE_VOICE_TEST` not `"true"`) receives, in order, a speak-text
acknowledgement, exactly one start-streaming instruction whose URL is the
request's own base URL with `http`→`ws` (`https`→`wss`) plus
`media-stream`, and exactly one pause of 3600 seconds (at most one pause,
none exceeding one hour), returned as `application/xml`. -/
theorem mediabridge_twiml_structure (cfg : Config) (req : IncomingRequest)
    (hVal : (validate_twilio_request cfg.twilio_auth_token req.url req.body
      req.signatureHeader).1 = true)
    (hMode : pyLower cfg.simple_voice_test ≠ "true") :
    handle_incoming_call cfg req =
      { status := 200, content := some (renderTwiML (incomingCallTwiml cfg req)),
        mediaType := some "application/xml" } ∧
    incomingCallTwiml cfg req =
      [.say "Connecting you to the AI agent. Please wait a moment.",
       .startStream (websocketUrl req.base_url), .pause 3600] ∧
    (incomingCallTwiml cfg req).filter TwiMLVerb.isStream =
      [.startStream (websocketUrl req.base_url)] ∧
    ((incomingCallTwiml cfg req).filter TwiMLVerb.isPause).length ≤ 1 ∧
    ∀ v ∈ incomingCallTwiml cfg req, v.pauseLength ≤ 3600 := by
  have hdoc : incomingCallTwiml cfg req =
      [.say "Connecting you to the AI agent. Please wait a moment.",
       .startStream (websocketUrl req.base_url), .pause 3600] := by
    simp [incomingCallTwiml, hMode]
  refine ⟨?_, hdoc, ?_, ?_, ?_⟩
  · simp [handle_incoming_call, hVal]
  · rw [hdoc]; rfl
  · rw [hdoc]; simp [TwiMLVerb.isPause, List.filter]
  · rw [hdoc]
    intro v hv
    fin_cases hv <;> simp [TwiMLVerb.pauseLength]

/-- Claim C4 witness: a concrete request against a configuration with no
token (validation passes) and `SIMPLE_VOICE_TEST` unset produces exactly
the MediaBridge document, streaming to `ws://localhost:8000/media-stream`. -/
theorem mediabridge_twiml_structure_witness :
    pyLower "false" ≠ "true" ∧
    incomingCallTwiml
      { twilio_auth_token := Option.none, twilio_phone_number := Option.none,
        simple_voice_test := "false" }
      { url := "http://localhost:8000/incoming-call", base_url := "http://localhost:8000/",
        signatureHeader := "", body := "" } =
      [.say "Connecting you to the AI agent. Please wait a moment.",
       .startStream (websocketUrl "http://localhost:8000/"), .pause 3600] := by
  have hMode : pyLower "false" ≠ "true" := by decide
  have hVal : (validate_twilio_request Option.none "http://localhost:8000/incoming-call" ""
      "").1 = true := rfl
  exact ⟨hMode, (mediabridge_twiml_structure
    { twilio_auth_token := Option.none, twilio_phone_number := Option.none,
      simple_voice_test := "false" }
    { url := "http://localhost:8000/incoming-call", base_url := "http://localhost:8000/",
      signatureHeader := "", body := "" } hVal hMode).2.1⟩

/-- Claim C5 counterexample: after two `start` events for the same stream
identifier the registry holds no entry at all — not the "exactly one
entry" the claim asserts — because the handler never registers sessions:
both `start` events are handled identically (logged and skipped), and
neither is rejected. -/
theorem duplicate_start_no_registry_entry_cex :
    (handle_media_stream [.msg (mkStartMsg "S1") true, .msg (mkStartMsg "S1") true]).final.registry
      = [] ∧
    (handle_media_stream
      [.msg (mkStartMsg "S1") true, .msg (mkStartMsg "S1") true]).final.registry.count "S1" ≠ 1 :=
  ⟨rfl, by decide⟩

/-- Claim C5 as amended: the handler performs no registration at all — the
registry is empty after every event sequence (so trivially each streamId
maps to at most one live session), and a duplicate `start` changes
nothing: both events leave the state untouched and the loop continues. -/
theorem registry_never_populated (items : List WsItem) (sid : String) :
    (handle_media_stream items).final.registry = [] ∧
    handle_media_stream [.msg (mkStartMsg sid) true, .msg (mkStartMsg sid) true] =
      { final := {}, exitKind := .awaiting, finallyRan := false } := by
  refine ⟨?_, rfl⟩
  rw [handle_media_stream_final]
  exact (mediaLoop_registry_sent items {}).1

/-- Claim C6 counterexample: a `media` event arriving before any `start`
is not rejected — its frame is processed and echoed back, so the sent
list is non-empty, contrary to "no frame is processed or forwarded". -/
theorem media_before_start_still_echoed_cex :
    (handle_media_stream [.msg (mkMediaMsg "S1" "QUJDRA==") true]).final.sent =
      [mkEchoMsg "S1" "QUJDRA=="] :=
  rfl

/-- Claim C6 as amended: a `media` event before any `start` is handled
exactly like any other `media` event — the dispatch does not track whether
a `start` was seen, so the frame is echoed back as the first sent
message; no session is created and the registry remains empty. -/
theorem media_before_start_processed_not_rejected (sid payload : String) (rest : List WsItem) :
    (handle_media_stream (.msg (mkMediaMsg sid payload) true :: rest)).final.registry = [] ∧
    ∃ tail, (handle_media_stream (.msg (mkMediaMsg sid payload) true :: rest)).final.sent =
      mkEchoMsg sid payload :: tail := by
  rw [handle_media_stream_final]
  have hstep : mediaLoop (.msg (mkMediaMsg sid payload) true :: rest) ({} : MSState) =
      mediaLoop rest { sent := [mkEchoMsg sid payload], registry := [] } := by
    simp [mediaLoop, handleEvent_media_str]
  rw [hstep]
  obtain ⟨hreg, tail, hsent⟩ :=
    mediaLoop_registry_sent rest { sent := [mkEchoMsg sid payload], registry := [] }
  exact ⟨hreg, tail, hsent⟩

/-- Claim C7 counterexample: in the start / five media / stop scenario no
frame is forwarded to any backend — the source opens no backend channel;
the five frames are echoed back on the same carrier-facing connection
instead (five sent frames), contrary to "exactly five AudioFrames have
been forwarded to the backend". -/
theorem five_media_no_backend_forwarding_cex :
    backendForwarded (handle_media_stream
      [.msg (mkStartMsg "MZ1") true, .msg (mkMediaMsg "MZ1" "UDE=") true,
       .msg (mkMediaMsg "MZ1" "UDI=") true, .msg (mkMediaMsg "MZ1" "UDM=") true,
       .msg (mkMediaMsg "MZ1" "UDQ=") true, .msg (mkMediaMsg "MZ1" "UDU=") true,
       .msg mkStopMsg true]).final = [] ∧
    (handle_media_stream
      [.msg (mkStartMsg "MZ1") true, .msg (mkMediaMsg "MZ1" "UDE=") true,
       .msg (mkMediaMsg "MZ1" "UDI=") true, .msg (mkMediaMsg "MZ1" "UDM=") true,
       .msg (mkMediaMsg "MZ1" "UDQ=") true, .msg (mkMediaMsg "MZ1" "UDU=") true,
       .msg mkStopMsg true]).final.sent.length = 5 :=
  ⟨rfl, rfl⟩

/-- Claim C7 as amended: on `start`, five `media` events and `stop`, the
loop exits through the `stop` branch and teardown runs (the code's
analogue of ending in state Closed), exactly five echo frames carrying
the five payloads are sent back on the same connection in arrival order,
and the registry never contains the session. -/
theorem start_five_media_stop_five_echoes (sid p1 p2 p3 p4 p5 : String) :
    handle_media_stream
      [.msg (mkStartMsg sid) true, .msg (mkMediaMsg sid p1) true, .msg (mkMediaMsg sid p2) true,
       .msg (mkMediaMsg sid p3) true, .msg (mkMediaMsg sid p4) true, .msg (mkMediaMsg sid p5) true,
       .msg mkStopMsg true] =
      { final := { sent := [mkEchoMsg sid p1, mkEchoMsg sid p2, mkEchoMsg sid p3,
                            mkEchoMsg sid p4, mkEchoMsg sid p5], registry := [] },
        exitKind := .stopped, finallyRan := true } := by
  simp [handle_media_stream, mediaLoop, handleEvent_start, handleEvent_media_str, handleEvent_stop]

/-- Claim C8 counterexample: with no secret configured the validator
accepts both a body and the same body with one altered byte (`"ab"` vs
`"bb"`), so altering a single body byte does not make it return false. -/
theorem altered_body_accepted_without_secret_cex :
    oneByteDiff (utf8 "ab") (utf8 "bb") = true ∧
    (validate_twilio_request Option.none "https://example.com/incoming-call" "ab" "sig").1
      = true ∧
    (validate_twilio_request Option.none "https://example.com/incoming-call" "bb" "sig").1
      = true :=
  ⟨by decide, rfl, rfl⟩

/-- Claim C8 as amended: when a non-empty secret is configured and the
validator accepted the original input, it accepts the input with a
one-byte-altered body exactly when the two bodies' computed HMAC-SHA1
signatures coincide — so it returns false whenever the altered body's
signature differs, which is precisely the absence of an HMAC collision. -/
theorem altered_body_rejected_iff_signature_differs
    (t url body body' sig : String) (ht : t.isEmpty = false)
    (hAccept : (validate_twilio_request (some t) url body sig).1 = true)
    (_hDiff : oneByteDiff (utf8 body) (utf8 body') = true) :
    ((validate_twilio_request (some t) url body' sig).1 = true ↔
      computeSignature t url body' = computeSignature t url body) := by
  have h1 : (validate_twilio_request (some t) url body sig).1 =
      secureCompare (computeSignature t url body) sig := by
    simp [validate_twilio_request, ht]
  rw [h1] at hAccept
  have hsig : computeSignature t url body = sig := by
    simpa [secureCompare] using hAccept
  have h2 : (validate_twilio_request (some t) url body' sig).1 =
      secureCompare (computeSignature t url body') sig := by
    simp [validate_twilio_request, ht]
  rw [h2, hsig]
  simp [secureCompare]

/-- Claim C8 witness: for secret `"shh"`, bodies `"ab"` and `"bb"` (one
altered byte) and the original's correct signature, the validator's
acceptance of the altered body is equivalent to a signature collision. -/
theorem altered_body_rejected_iff_signature_differs_witness :
    ("shh" : String).isEmpty = false ∧
    oneByteDiff (utf8 "ab") (utf8 "bb") = true ∧
    ((validate_twilio_request (some "shh") "https://example.com/incoming-call" "bb"
        (computeSignature "shh" "https://example.com/incoming-call" "ab")).1 = true ↔
      computeSignature "shh" "https://example.com/incoming-call" "bb" =
        computeSignature "shh" "https://example.com/incoming-call" "ab") := by
  have hAccept : (validate_twilio_request (some "shh") "https://example.com/incoming-call" "ab"
      (computeSignature "shh" "https://example.com/incoming-call" "ab")).1 = true :=
    (validate_some_fst "shh" "https://example.com/incoming-call" "ab"
      (computeSignature "shh" "https://example.com/incoming-call" "ab") rfl).trans
      (secureCompare_self (computeSignature "shh" "https://example.com/incoming-call" "ab"))
  exact ⟨rfl, by decide,
    altered_body_rejected_iff_signature_differs "shh" _ "ab" "bb" _ rfl hAccept (by decide)⟩

/-- Claim C9: every exception raised while servicing the streaming
connection (receive failure, decode failure, send failure, dispatch
errors) is caught by the handler's `except Exception`: the teardown
(`finally`) runs, the partial state is preserved, and the handler returns
normally — the server process does not crash. -/
theorem loop_exception_caught_teardown_runs (items : List WsItem) (e : PyErr) (st : MSState)
    (h : mediaLoop items {} = .error (e, st)) :
    handle_media_stream items = { final := st, exitKind := .caught e, finallyRan := true } := by
  simp [handle_media_stream, h]

/-- Claim C9 witness: a dropped connection, an unparseable frame and a
failing send are each caught, with teardown run and a normal return. -/
theorem loop_exception_caught_teardown_runs_witness :
    handle_media_stream [.recvErr] =
      { final := {}, exitKind := .caught .connectionError, finallyRan := true } ∧
    handle_media_stream [.malformed] =
      { final := {}, exitKind := .caught .jsonDecodeError, finallyRan := true } ∧
    handle_media_stream [.msg (mkMediaMsg "S1" "QUJD") false] =
      { final := {}, exitKind := .caught .sendError, finallyRan := true } :=
  ⟨loop_exception_caught_teardown_runs _ _ _ rfl,
   loop_exception_caught_teardown_runs _ _ _ rfl,
   loop_exception_caught_teardown_runs _ _ _ rfl⟩

/-- Claim C10 counterexample: a `media` event whose `media.payload` is
present but is the truthy unsized value `5` sends no echo at all — the
`len(payload)` call raises `TypeError`, which terminates the session —
contrary to "exactly one message is sent". -/
theorem media_truthy_unsized_payload_no_echo_cex :
    handle_media_stream
      [.msg (.dict [("event", .str "media"), ("media", .dict [("payload", .int 5)])]) true] =
      { final := {}, exitKind := .caught .typeError, finallyRan := true } :=
  rfl

/-- Claim C10 as amended: for a `media` event whose `media.payload` is
present and survives the `len()` logging call (any falsy or sized value —
strings in particular), the handler sends exactly one frame before
processing the next event: the payload echoed byte-for-byte under
`media.payload`, with `streamSid` copied from the incoming event's
top-level `streamSid` (null when absent). -/
theorem media_event_exactly_one_echo
    (data mediaObj payload sid : PyVal) (rest : List WsItem) (st : MSState)
    (hEvent : data.get "event" = .ok (.str "media"))
    (hMedia : data.getD "media" (.dict []) = .ok mediaObj)
    (hPayload : mediaObj.get "payload" = .ok payload)
    (hLen : lenCheckOk payload = true)
    (hSid : data.get "streamSid" = .ok sid) :
    handleEvent data true = .ok ([echoFrame sid payload], false) ∧
    mediaLoop (.msg data true :: rest) st =
      mediaLoop rest { st with sent := st.sent ++ [echoFrame sid payload] } := by
  have hE : handleEvent data true = .ok ([echoFrame sid payload], false) := by
    cases hL : (if payload.truthy then payload.pyLen else Except.ok 0) with
    | ok n =>
      unfold handleEvent
      rw [hEvent]
      simp [PyVal.eqStr, hMedia, hPayload, hL, hSid]
    | error e =>
      exfalso
      simp [lenCheckOk, hL] at hLen
  refine ⟨hE, ?_⟩
  simp [mediaLoop, hE]

/-- Claim C10 witness: a concrete media event without a top-level
`streamSid` is echoed exactly once, with `streamSid` null. -/
theorem media_event_exactly_one_echo_witness :
    lenCheckOk (.str "QUJD") = true ∧
    handleEvent (.dict [("event", .str "media"), ("media", .dict [("payload", .str "QUJD")])])
      true = .ok ([echoFrame .null (.str "QUJD")], false) :=
  ⟨rfl, (media_event_exactly_one_echo
    (.dict [("event", .str "media"), ("media", .dict [("payload", .str "QUJD")])])
    (.dict [("payload", .str "QUJD")]) (.str "QUJD") .null [] {} rfl rfl rfl rfl rfl).1⟩
